import Mathlib

/-!
# Verification of the NeoBot monitoring / alert-delivery engine

Shallow embedding of `src/utils/monitor.js` (class `MonitoringSystem`) and the
relevant configuration constants from `config/index.js`.

Conventions:
* JS millisecond timestamps are `Int`.
* JS numbers used as counters/rates are `Int`.
* Nullable / possibly-undefined JS values are `Option _`.
* The mutable fields of the `MonitoringSystem` instance (plus the
  `monitored_ips` database rows it updates through `database.updateMonitor`)
  are gathered in the state record `MonState`; each method becomes a function
  from its inputs and `MonState` to `MonState`.
* JavaScript is untyped, so the values flowing into `queueAlert` are modelled
  by the inductive `JsVal`; this is needed because `sendTestAlert` passes a
  single object literal to the two-parameter `queueAlert`.
-/

/-- `config.notifications.cooldowns.sameIP` (config/index.js line 186): 60000 ms. -/
def sameIPCooldown : Int := 60000

/-- local `maxAge` constant in `shouldSendAlert` (monitor.js line 282): 1 hour. -/
def maxAge : Int := 3600000

/-- `this.circuitBreaker.resetTimeout` (monitor.js line 38): 5 minutes. -/
def resetTimeout : Int := 300000

/-- `this.maxConsecutiveFailures` (monitor.js line 20). -/
def maxConsecutiveFailures : Nat := 5

/-- `maxRetries` local constant in `sendAlert` (monitor.js line 330). -/
def maxRetries : Nat := 3

/-- A row of `monitored_ips` as the monitoring loop reads it
(`getAllActiveMonitors`, monitor.js lines 503-518). -/
structure Monitor where
  id : Int
  guild_id : String
  ip_address : String
  alert_channel_id : String
  last_attack_id : Option String
  total_attacks : Option Int
deriving DecidableEq, Repr

/-- An attack object as fetched from the NeoProtect API; only the fields the
monitoring engine consumes.  `dstAddressIpv4` models `attack.dstAddress?.ipv4`
and `targetIp` models `attack.target?.ip` (monitor.js lines 226-227). -/
structure Attack where
  id : String
  dstAddressIpv4 : Option String
  targetIp : Option String
  startedAt : Int
  attackType : Option String
  status : Option String
  peakPps : Option Int
  peakBandwidth : Option Int
deriving DecidableEq, Repr

/-- Untyped JavaScript values that may appear in the `monitor` / `attack`
fields of a queued alert task.  `JsVal.obj` is an object literal of shape
`\x7bmonitor, attack, timestamp, retries\x7d` (used by `sendTestAlert`). -/
inductive JsVal where
  | undef : JsVal
  | mon : Monitor → JsVal
  | atk : Attack → JsVal
  | obj : JsVal → JsVal → Int → Nat → JsVal
deriving DecidableEq, Repr

/-- An entry of `this.alertQueue` as pushed by `queueAlert`
(monitor.js lines 293-298). -/
structure AlertTask where
  monitor : JsVal
  attack : JsVal
  timestamp : Int
  retries : Nat
deriving DecidableEq, Repr

/-- The durable cursor fields of a target row that monitor.js lines 490-494
tries to write (`last_attack_id` exists in the SQLite `monitored_ips`
schema; `last_attack_time` / `total_attacks` appear only in the MongoDB
migration shape, database.js lines 655-659).  The engine never succeeds in
writing any of them — see `updateMonitorAttackInfo`. -/
structure DbRow where
  last_attack_id : Option String
  last_attack_time : Option Int
  total_attacks : Int
deriving DecidableEq, Repr

/-- `this.circuitBreaker` (monitor.js lines 34-39); `resetTimeout` is the
constant above. -/
structure CircuitBreakerState where
  isOpen : Bool
  failureCount : Nat
  lastFailureTime : Option Int
deriving DecidableEq, Repr

/-- The mutable state of a `MonitoringSystem` instance (constructor,
monitor.js lines 10-40) together with the `monitored_ips` rows (`rows`) and
the stream of metric names recorded through `recordMetric` (`metricLog`). -/
structure MonState where
  isRunning : Bool
  lastAlerts : List (String × Int)
  alertQueue : List AlertTask
  isProcessingAlerts : Bool
  consecutiveFailures : Nat
  totalChecks : Nat
  alertsSent : Nat
  errors : Nat
  breaker : CircuitBreakerState
  rows : List (Int × DbRow)
  metricLog : List String
deriving DecidableEq, Repr

/-- The state built by the constructor (monitor.js lines 10-40), with an
empty database. -/
def initState : MonState :=
  { isRunning := false
    lastAlerts := []
    alertQueue := []
    isProcessingAlerts := false
    consecutiveFailures := 0
    totalChecks := 0
    alertsSent := 0
    errors := 0
    breaker := { isOpen := false, failureCount := 0, lastFailureTime := none }
    rows := []
    metricLog := [] }

/-- `Map.get` on `this.lastAlerts`, keyed by the alert key string. -/
def lookupAlert (la : List (String × Int)) (k : String) : Option Int :=
  (la.find? (fun p => p.1 == k)).map Prod.snd

/-- `Map.set` on `this.lastAlerts`. -/
def mapSet (la : List (String × Int)) (k : String) (v : Int) : List (String × Int) :=
  (k, v) :: la.filter (fun p => !(p.1 == k))

/-- The template string `` `${monitor.guild_id}:${monitor.ip_address}` ``
(monitor.js lines 270 and 358). -/
def alertKey (m : Monitor) : String := m.guild_id ++ ":" ++ m.ip_address

/-- Property access `v.guild_id` on an untyped value: `undefined` stringifies
to `"undefined"` inside a template literal. -/
def jsGuildId : JsVal → String
  | JsVal.mon m => m.guild_id
  | _ => "undefined"

/-- Property access `v.ip_address` on an untyped value. -/
def jsIp : JsVal → String
  | JsVal.mon m => m.ip_address
  | _ => "undefined"

/-- The alert key computed from `task.monitor` in `sendAlert`
(monitor.js line 358). -/
def taskAlertKey (t : AlertTask) : String :=
  jsGuildId t.monitor ++ ":" ++ jsIp t.monitor

/-- monitor.js lines 269-278: the cooldown test
`lastAlertTime && (now - lastAlertTime) < config.notifications.cooldowns.sameIP`.
JS truthiness: a stored timestamp of `0` counts as absent. -/
def cooldownActive (la : List (String × Int)) (m : Monitor) (now : Int) : Bool :=
  match lookupAlert la (alertKey m) with
  | none => false
  | some t => !(t == 0) && decide (now - t < sameIPCooldown)

/-- `shouldSendAlert(monitor, attack)` (monitor.js lines 263-290).  The
function reads only `this.lastAlerts` and the clock, passed explicitly. -/
def shouldSendAlert (monitor : Monitor) (attack : Attack)
    (lastAlerts : List (String × Int)) (now : Int) : Bool :=
  if monitor.last_attack_id = some attack.id then false
  else if cooldownActive lastAlerts monitor now then false
  else if now - attack.startedAt > maxAge then false
  else true

/-- `queueAlert(monitor, attack)` (monitor.js lines 292-304): pushes
`\x7bmonitor, attack, timestamp: Date.now(), retries: 0\x7d` onto
`this.alertQueue`.  (The `setImmediate` kick of `processAlertQueue` is the
asynchronous drain, modelled separately by `dispatchOnce`.) -/
def queueAlert (monitor attack : JsVal) (now : Int) (st : MonState) : MonState :=
  { st with alertQueue := st.alertQueue ++ [⟨monitor, attack, now, 0⟩] }

/-- The Decision Engine of the spec: `shouldSendAlert` followed by
`queueAlert`, exactly as called from `processMonitor`
(monitor.js lines 240-243). -/
def decisionEngine (m : Monitor) (a : Attack) (now : Int) (st : MonState) : MonState :=
  if shouldSendAlert m a st.lastAlerts now then
    queueAlert (JsVal.mon m) (JsVal.atk a) now st
  else st

/-- The address-match predicate of `processMonitor` (monitor.js lines 225-228):
`attack.dstAddress?.ipv4 === monitor.ip_address || attack.target?.ip === monitor.ip_address`. -/
def matchesMonitor (m : Monitor) (a : Attack) : Bool :=
  a.dstAddressIpv4 == some m.ip_address || a.targetIp == some m.ip_address

/-- Helper for `selectLatest`: fold keeping the current element unless a later
one has a strictly greater `startedAt`.  This returns the first element of
`b :: l` attaining the maximal `startedAt`. -/
def pickLatest (b : Attack) (l : List Attack) : Attack :=
  l.foldl (fun b x => if x.startedAt > b.startedAt then x else b) b

/-- monitor.js lines 235-237:
`ipAttacks.sort((a, b) => new Date(b.startedAt) - new Date(a.startedAt))` and
taking `ipAttacks[0]`.  `Array.prototype.sort` is stable, so the head of the
descending-sorted array is the first element of the original array attaining
the maximal `startedAt`; `selectLatest` computes exactly that element. -/
def selectLatest : List Attack → Option Attack
  | [] => none
  | a :: rest => some (pickLatest a rest)

/-- The Correlator: the pure selection performed by `processMonitor`
(monitor.js lines 225-237) — filter the fetched attacks by address match,
then take the head of the stable descending sort by `startedAt`. -/
def correlate (m : Monitor) (attacks : List Attack) : Option Attack :=
  selectLatest (attacks.filter (fun a => matchesMonitor m a))

/-- Row lookup in the modelled `monitored_ips` table. -/
def lookupRow (rows : List (Int × DbRow)) (id : Int) : Option DbRow :=
  (rows.find? (fun p => p.1 == id)).map Prod.snd

/-- `updateMonitorAttackInfo(monitor, attack)` (monitor.js lines 488-501).
The body attempts `await database.updateMonitor(monitor.id,
\x7blast_attack_id, last_attack_time, total_attacks\x7d)`, but the
`DatabaseManager` exported by `src/utils/database.js` has NO `updateMonitor`
method (its cursor writer `updateLastAttackId`, database.js line 260, is
never called from anywhere), and the SQLite `monitored_ips` schema
(database.js lines 59-73) has no `last_attack_time` / `total_attacks`
columns either.  The call therefore throws a `TypeError`, which the
surrounding `try/catch` (lines 489-500) swallows after logging
`Failed to update monitor attack info`.  Net effect on state: none — the
`monitored_ips` rows are left unchanged. -/
def updateMonitorAttackInfo (_monitor : Monitor) (_attack : Attack)
    (st : MonState) : MonState :=
  st

/-- `processMonitor(monitor, attacks)` (monitor.js lines 222-261): correlate,
then — if `shouldSendAlert` accepts — `queueAlert` immediately followed by
`updateMonitorAttackInfo`. -/
def processMonitor (m : Monitor) (attacks : List Attack) (now : Int)
    (st : MonState) : MonState :=
  match correlate m attacks with
  | none => st
  | some latest =>
      if shouldSendAlert m latest st.lastAlerts now then
        updateMonitorAttackInfo m latest
          (queueAlert (JsVal.mon m) (JsVal.atk latest) now st)
      else st

/-- Outcome of one `sendAlert` attempt, abstracting the Discord environment:
guild missing from the cache, channel missing, `channel.send` resolving, or
`channel.send` throwing. -/
inductive SendResult where
  | noGuild : SendResult
  | noChannel : SendResult
  | sendOk : SendResult
  | sendErr : SendResult
deriving DecidableEq, Repr

/-- `sendAlert(alertData)` (monitor.js lines 328-389).  On success: bump
`alertsSent`, record the `alert_sent` metric, and set the cooldown entry
`this.lastAlerts.set(alertKey, Date.now())`.  On a send error: if
`retries < maxRetries`, increment the retry count and `unshift` the task back
to the front of the queue; otherwise drop it, bump `errors` and record the
`alert_error` metric.  Missing guild/channel returns without retry. -/
def sendAlert (task : AlertTask) (res : SendResult) (now : Int) (st : MonState) :
    MonState :=
  match res with
  | SendResult.noGuild => st
  | SendResult.noChannel => st
  | SendResult.sendOk =>
      { st with alertsSent := st.alertsSent + 1
                metricLog := st.metricLog ++ ["alert_sent"]
                lastAlerts := mapSet st.lastAlerts (taskAlertKey task) now }
  | SendResult.sendErr =>
      if task.retries < maxRetries then
        { st with alertQueue := { task with retries := task.retries + 1 } :: st.alertQueue }
      else
        { st with errors := st.errors + 1
                  metricLog := st.metricLog ++ ["alert_error"] }

/-- One iteration of the `processAlertQueue` drain loop
(monitor.js lines 314-320): `shift()` the front task and `sendAlert` it. -/
def dispatchOnce (res : SendResult) (now : Int) (st : MonState) : MonState :=
  match st.alertQueue with
  | [] => st
  | task :: rest => sendAlert task res now { st with alertQueue := rest }

/-- `getAllActiveMonitors()` (monitor.js lines 503-518): the query result on
success, and `[]` when the query throws (the catch returns `[]`). -/
def getAllActiveMonitors (dbOk : Bool) (activeRows : List Monitor) : List Monitor :=
  if dbOk then activeRows else []

/-- `openCircuitBreaker()` (monitor.js lines 539-548). -/
def openCircuitBreaker (now : Int) (st : MonState) : MonState :=
  { st with breaker := { st.breaker with isOpen := true, lastFailureTime := some now } }

/-- `closeCircuitBreaker()` (monitor.js lines 550-559). -/
def closeCircuitBreaker (st : MonState) : MonState :=
  if st.breaker.isOpen then
    { st with breaker := { isOpen := false, failureCount := 0, lastFailureTime := none } }
  else st

/-- `isCircuitBreakerOpen()` (monitor.js lines 561-573).  Returns the boolean
and the (possibly self-healed) breaker: when open and
`Date.now() - lastFailureTime > resetTimeout`, the breaker is closed in place
and `false` is returned.  `Date.now() - null` coerces `null` to `0`. -/
def isCircuitBreakerOpenFn (cb : CircuitBreakerState) (now : Int) :
    Bool × CircuitBreakerState :=
  if cb.isOpen = true then
    if now - cb.lastFailureTime.getD 0 > resetTimeout then
      (false, { cb with isOpen := false })
    else (true, cb)
  else (false, cb)

/-- `handleMonitoringError(error)` (monitor.js lines 520-537): bump
`consecutiveFailures` and `errors`, open the breaker when the incremented
count reaches `maxConsecutiveFailures`, record the `monitoring_error`
metric.  (The source increments `this.consecutiveFailures` first and then
compares it; here the comparison is written on the incremented value.) -/
def handleMonitoringError (now : Int) (st : MonState) : MonState :=
  if st.consecutiveFailures + 1 ≥ maxConsecutiveFailures then
    openCircuitBreaker now
      { st with consecutiveFailures := st.consecutiveFailures + 1
                errors := st.errors + 1
                metricLog := st.metricLog ++ ["monitoring_error"] }
  else
    { st with consecutiveFailures := st.consecutiveFailures + 1
              errors := st.errors + 1
              metricLog := st.metricLog ++ ["monitoring_error"] }

/-- `processMonitors(monitors, attacks)` (monitor.js lines 206-220): every
monitor is processed against the single fetched attack list (batches of 5 via
`Promise.all`; the per-monitor state effects are modelled as a sequential
fold, and per-monitor errors are caught without aborting siblings). -/
def processMonitors (ms : List Monitor) (attacks : List Attack) (now : Int)
    (st : MonState) : MonState :=
  ms.foldl (fun s m => processMonitor m attacks now s) st

/-- The environment of one check cycle: whether the `monitored_ips` query
succeeds, the active rows it would return, and the result of
`getAttacksWithRetry` (`none` = it threw after exhausting its retries). -/
structure CycleEnv where
  dbOk : Bool
  activeMonitors : List Monitor
  apiResult : Option (List Attack)
deriving Repr

/-- Result of one cycle: the new state, plus the observation whether the
upstream dependency (`neoprotect.getAttacks` via `getAttacksWithRetry`) was
invoked during the cycle. -/
structure CycleResult where
  state : MonState
  upstreamCalled : Bool
deriving Repr

/-- `performMonitoringCheck()` (monitor.js lines 138-179), one sequential
cycle.  Early returns: not running; circuit breaker open; no active monitors
(which includes a failed store query, since `getAllActiveMonitors` returns
`[]` on error).  Otherwise the upstream fetch happens: on failure
`handleMonitoringError`, on success `processMonitors` then reset
`consecutiveFailures` and `closeCircuitBreaker`.  (The `finally` block only
records timing metrics.) -/
def performMonitoringCheck (env : CycleEnv) (now : Int) (st : MonState) :
    CycleResult :=
  if st.isRunning = false then ⟨st, false⟩
  else if (isCircuitBreakerOpenFn st.breaker now).1 then
    ⟨{ st with breaker := (isCircuitBreakerOpenFn st.breaker now).2 }, false⟩
  else if (getAllActiveMonitors env.dbOk env.activeMonitors).isEmpty then
    ⟨{ st with breaker := (isCircuitBreakerOpenFn st.breaker now).2
               totalChecks := st.totalChecks + 1 }, false⟩
  else
    match env.apiResult with
    | none =>
        ⟨handleMonitoringError now
          { st with breaker := (isCircuitBreakerOpenFn st.breaker now).2
                    totalChecks := st.totalChecks + 1 }, true⟩
    | some attacks =>
        ⟨closeCircuitBreaker
          { processMonitors (getAllActiveMonitors env.dbOk env.activeMonitors)
              attacks now
              { st with breaker := (isCircuitBreakerOpenFn st.breaker now).2
                        totalChecks := st.totalChecks + 1 } with
            consecutiveFailures := 0 }, true⟩

/-- The synthetic attack built by `sendTestAlert` (monitor.js lines 761-771). -/
def testAttack (now : Int) : Attack :=
  { id := "test-" ++ toString now
    dstAddressIpv4 := none
    targetIp := none
    startedAt := now
    attackType := some "UDP Flood"
    status := some "Active"
    peakPps := some 50000
    peakBandwidth := some 500000000 }

/-- `sendTestAlert(monitor)` (monitor.js lines 760-779).  The source calls
`this.queueAlert(\x7bmonitor, attack: testAttack, timestamp: Date.now(),
retries: 0\x7d)` — a single object literal passed to the two-parameter
`queueAlert(monitor, attack)`, so `queueAlert` receives the wrapper object as
`monitor` and `undefined` as `attack`. -/
def sendTestAlert (monitor : Monitor) (now : Int) (st : MonState) : MonState :=
  queueAlert (JsVal.obj (JsVal.mon monitor) (JsVal.atk (testAttack now)) now 0)
    JsVal.undef now st

/-- Severity tiers returned by `getAttackSeverity` (monitor.js lines 474-486);
the code has exactly these four. -/
inductive Severity where
  | low : Severity
  | medium : Severity
  | high : Severity
  | critical : Severity
deriving DecidableEq, Repr

/-- Numeric rank of a severity tier (order of the `if` chain). -/
def sevRank : Severity → Nat
  | Severity.low => 0
  | Severity.medium => 1
  | Severity.high => 2
  | Severity.critical => 3

/-- The breakpoint chain of `getAttackSeverity` on the coerced numbers. -/
def severityOf (pps bandwidth : Int) : Severity :=
  if pps > 1000000 ∨ bandwidth > 10000000000 then Severity.critical
  else if pps > 100000 ∨ bandwidth > 1000000000 then Severity.high
  else if pps > 10000 ∨ bandwidth > 100000000 then Severity.medium
  else Severity.low

/-- `getAttackSeverity(attack)` (monitor.js lines 474-486):
`attack.peakPps || 0` and `attack.peakBandwidth || 0` (JS `|| 0` maps a
missing field to `0`), then the breakpoint chain. -/
def getAttackSeverity (a : Attack) : Severity :=
  severityOf (a.peakPps.getD 0) (a.peakBandwidth.getD 0)

/-! ### Sample data used by witnesses and counterexamples -/

/-- A sample active monitor row. -/
def sampleMonitor : Monitor :=
  { id := 1
    guild_id := "g1"
    ip_address := "1.2.3.4"
    alert_channel_id := "c1"
    last_attack_id := none
    total_attacks := some 0 }

/-- A sample fetched attack matching `sampleMonitor`. -/
def sampleAttack : Attack :=
  { id := "atk-1"
    dstAddressIpv4 := some "1.2.3.4"
    targetIp := none
    startedAt := 500
    attackType := some "UDP Flood"
    status := some "Active"
    peakPps := some 50000
    peakBandwidth := some 500000000 }

/-- Like `sampleAttack` but with event id `"b"`. -/
def sampleAttackB : Attack :=
  { sampleAttack with id := "b" }

/-- Like `sampleAttack` but with event id `"a"`. -/
def sampleAttackA : Attack :=
  { sampleAttack with id := "a" }

/-- `initState` with the monitoring loop running and `sampleMonitor`'s row
present in the store. -/
def runningState : MonState :=
  { initState with isRunning := true
                   rows := [(1, ⟨none, none, 0⟩)] }

/-- `initState` with the loop running (used by witnesses that need only the
in-memory state). -/
def emptyRunningState : MonState := { initState with isRunning := true }

/-- An attack with no statistics fields at all (exercises the `|| 0`
coercions). -/
def emptyStatsAttack : Attack :=
  { id := "atk-0"
    dstAddressIpv4 := some "1.2.3.4"
    targetIp := none
    startedAt := 500
    attackType := none
    status := none
    peakPps := none
    peakBandwidth := none }

/-! ### Helper lemmas -/

/-- Characterisation of `shouldSendAlert`: it accepts exactly when the event
id is new, the cooldown test fails, and the attack is at most `maxAge` old. -/
theorem shouldSendAlert_iff (m : Monitor) (a : Attack)
    (la : List (String × Int)) (now : Int) :
    shouldSendAlert m a la now = true ↔
      m.last_attack_id ≠ some a.id ∧ cooldownActive la m now = false
        ∧ now - a.startedAt ≤ maxAge := by
  unfold shouldSendAlert
  split_ifs with h1 h2 h3 <;> simp_all
  omega

/-- A list never equals itself with one task appended. -/
theorem ne_append_singleton (l : List AlertTask) (x : AlertTask) :
    ¬ l = l ++ [x] := by
  intro h
  have h' := congrArg List.length h
  simp at h'

/-! ### C1 -/

/-- C1: for an active monitor `m` and a fetched attack `a` whose address
matches `m`'s, the Decision Engine (`shouldSendAlert` followed by
`queueAlert`) appends exactly one alert task for `(m, a)` if and only if
`a.id` differs from `m.last_attack_id`, no cooldown entry for
`(m.guild_id, m.ip_address)` lies within the cooldown window, and
`a.startedAt` is within `maxAge` (1 hour) of `now`; and when
`a.id = m.last_attack_id` nothing is ever enqueued, regardless of cooldown
state. -/
theorem decisionEngine_enqueues_iff (m : Monitor) (a : Attack) (st : MonState)
    (now : Int) (_hmatch : matchesMonitor m a = true) :
    ((decisionEngine m a now st).alertQueue
        = st.alertQueue ++ [⟨JsVal.mon m, JsVal.atk a, now, 0⟩]
      ↔ m.last_attack_id ≠ some a.id ∧ cooldownActive st.lastAlerts m now = false
          ∧ now - a.startedAt ≤ maxAge) ∧
    (m.last_attack_id = some a.id →
      (decisionEngine m a now st).alertQueue = st.alertQueue) := by
  constructor
  · rw [← shouldSendAlert_iff m a st.lastAlerts now]
    by_cases hs : shouldSendAlert m a st.lastAlerts now = true
    · simp [decisionEngine, hs, queueAlert]
    · simp only [Bool.not_eq_true] at hs
      simp only [decisionEngine, hs, Bool.false_eq_true, if_false]
      constructor
      · intro h; exact absurd h (ne_append_singleton _ _)
      · intro h; simp at h
  · intro h1
    have hs : shouldSendAlert m a st.lastAlerts now = false := by
      unfold shouldSendAlert; simp [h1]
    simp [decisionEngine, hs]

/-- Witness for C1 at a concrete matching pair. -/
theorem decisionEngine_enqueues_iff_witness :
    matchesMonitor sampleMonitor sampleAttack = true ∧
    (((decisionEngine sampleMonitor sampleAttack 1000 emptyRunningState).alertQueue
        = emptyRunningState.alertQueue
            ++ [⟨JsVal.mon sampleMonitor, JsVal.atk sampleAttack, 1000, 0⟩]
      ↔ sampleMonitor.last_attack_id ≠ some sampleAttack.id ∧
          cooldownActive emptyRunningState.lastAlerts sampleMonitor 1000 = false ∧
          1000 - sampleAttack.startedAt ≤ maxAge) ∧
    (sampleMonitor.last_attack_id = some sampleAttack.id →
      (decisionEngine sampleMonitor sampleAttack 1000 emptyRunningState).alertQueue
        = emptyRunningState.alertQueue)) :=
  ⟨by decide,
   decisionEngine_enqueues_iff sampleMonitor sampleAttack emptyRunningState 1000
     (by decide)⟩

/-! ### C6 -/

/-- C6: the severity classification is a total function of
`(peakPps, peakBandwidth)` — defined for every attack, including missing
statistics, via the `|| 0` coercions — and is monotone non-decreasing in both
arguments: raising peak pps or peak bandwidth never yields a strictly lower
tier. -/
theorem getAttackSeverity_monotone (a b : Attack)
    (hp : a.peakPps.getD 0 ≤ b.peakPps.getD 0)
    (hb : a.peakBandwidth.getD 0 ≤ b.peakBandwidth.getD 0) :
    sevRank (getAttackSeverity a) ≤ sevRank (getAttackSeverity b) := by
  unfold getAttackSeverity severityOf
  split_ifs <;> simp [sevRank] <;> omega

/-- Witness for C6: an attack with no statistics (classified via the `|| 0`
defaults) against one with large statistics. -/
theorem getAttackSeverity_monotone_witness :
    emptyStatsAttack.peakPps.getD 0 ≤ sampleAttack.peakPps.getD 0 ∧
    emptyStatsAttack.peakBandwidth.getD 0 ≤ sampleAttack.peakBandwidth.getD 0 ∧
    sevRank (getAttackSeverity emptyStatsAttack)
      ≤ sevRank (getAttackSeverity sampleAttack) :=
  ⟨by decide, by decide,
   getAttackSeverity_monotone emptyStatsAttack sampleAttack (by decide) (by decide)⟩

/-! ### Correlator lemmas -/

/-- Unfolding `pickLatest` over a cons cell. -/
theorem pickLatest_cons (b x : Attack) (rest : List Attack) :
    pickLatest b (x :: rest)
      = pickLatest (if x.startedAt > b.startedAt then x else b) rest := rfl

/-- The seed's start time never exceeds the selected element's. -/
theorem pickLatest_le (b : Attack) (l : List Attack) :
    b.startedAt ≤ (pickLatest b l).startedAt := by
  induction l generalizing b with
  | nil => exact le_refl _
  | cons x rest ih =>
      rw [pickLatest_cons]
      by_cases h : x.startedAt > b.startedAt
      · rw [if_pos h]
        exact le_of_lt (lt_of_lt_of_le h (ih x))
      · rw [if_neg h]
        exact ih b

/-- The selected element comes from the seed or the list. -/
theorem pickLatest_mem (b : Attack) (l : List Attack) :
    pickLatest b l = b ∨ pickLatest b l ∈ l := by
  induction l generalizing b with
  | nil => exact Or.inl rfl
  | cons x rest ih =>
      rw [pickLatest_cons]
      by_cases h : x.startedAt > b.startedAt
      · rw [if_pos h]
        rcases ih x with h' | h'
        · rw [h']; exact Or.inr (List.mem_cons_self x rest)
        · exact Or.inr (List.mem_cons_of_mem x h')
      · rw [if_neg h]
        rcases ih b with h' | h'
        · exact Or.inl h'
        · exact Or.inr (List.mem_cons_of_mem x h')

/-- Every list element's start time is bounded by the selected one's. -/
theorem pickLatest_bound (b : Attack) (l : List Attack) :
    ∀ x ∈ l, x.startedAt ≤ (pickLatest b l).startedAt := by
  induction l generalizing b with
  | nil => intro x hx; cases hx
  | cons y rest ih =>
      intro x hx
      rw [pickLatest_cons]
      rcases List.mem_cons.mp hx with rfl | hx'
      · by_cases h : x.startedAt > b.startedAt
        · rw [if_pos h]; exact pickLatest_le x rest
        · rw [if_neg h]
          exact le_trans (le_of_not_lt h) (pickLatest_le b rest)
      · by_cases h : y.startedAt > b.startedAt
        · rw [if_pos h]; exact ih y x hx'
        · rw [if_neg h]; exact ih b x hx'

/-- `pickLatest` returns the FIRST element of `b :: l` attaining the maximal
start time: searching `b :: l` for the selected start time finds exactly the
selected element. -/
theorem pickLatest_first (b : Attack) (l : List Attack) :
    (b :: l).find? (fun x => x.startedAt == (pickLatest b l).startedAt)
      = some (pickLatest b l) := by
  induction l generalizing b with
  | nil =>
      simp [pickLatest]
  | cons x rest ih =>
      rw [pickLatest_cons]
      by_cases h : x.startedAt > b.startedAt
      · rw [if_pos h]
        have hle := pickLatest_le x rest
        have hb : ¬ (fun y : Attack => y.startedAt == (pickLatest x rest).startedAt) b = true := by
          simp only [beq_iff_eq]
          omega
        rw [List.find?_cons_of_neg (x :: rest) hb]
        exact ih x
      · rw [if_neg h]
        have hle := pickLatest_le b rest
        have ihb := ih b
        by_cases hb : b.startedAt = (pickLatest b rest).startedAt
        · have hbt : (fun y : Attack => y.startedAt == (pickLatest b rest).startedAt) b = true := by
            simp only [beq_iff_eq]; exact hb
          rw [List.find?_cons_of_pos rest hbt] at ihb
          rw [List.find?_cons_of_pos (x :: rest) hbt]
          exact ihb
        · have hbf : ¬ (fun y : Attack => y.startedAt == (pickLatest b rest).startedAt) b = true := by
            simp only [beq_iff_eq]; exact hb
          have hxf : ¬ (fun y : Attack => y.startedAt == (pickLatest b rest).startedAt) x = true := by
            simp only [beq_iff_eq]
            omega
          rw [List.find?_cons_of_neg rest hbf] at ihb
          rw [List.find?_cons_of_neg (x :: rest) hbf, List.find?_cons_of_neg rest hxf]
          exact ihb

/-! ### C7 -/

/-- C7 counterexample: two fetched attacks on `sampleMonitor`'s address share
the same start time; their ids are `"a"` and `"b"`, with `"a"` strictly below
`"b"` in the lexicographic (character-list) order underlying `String.lt`.
Yet the Correlator selects the one with id `"a"` — the earlier list
position — not the lexicographically greatest id. -/
theorem correlate_tiebreak_counterexample :
    matchesMonitor sampleMonitor sampleAttackA = true ∧
    matchesMonitor sampleMonitor sampleAttackB = true ∧
    sampleAttackA.startedAt = sampleAttackB.startedAt ∧
    sampleAttackA.id.data < sampleAttackB.id.data ∧
    correlate sampleMonitor [sampleAttackA, sampleAttackB] = some sampleAttackA ∧
    sampleAttackA ≠ sampleAttackB := by
  refine ⟨by decide, by decide, by decide, by decide, by decide, by decide⟩

/-- C7 amended: the Correlator is a pure selection over the fetched list: it
returns `none` exactly when no fetched attack matches the target's address,
and otherwise returns a matching attack with the latest start time, ties
broken by the EARLIEST position in the fetched list (the head of the stable
descending sort), not by event id. -/
theorem correlate_selects_first_latest (m : Monitor) (attacks : List Attack) :
    (correlate m attacks = none
        ↔ attacks.filter (fun a => matchesMonitor m a) = []) ∧
    (∀ a, correlate m attacks = some a →
      a ∈ attacks.filter (fun x => matchesMonitor m x) ∧
      (∀ b ∈ attacks.filter (fun x => matchesMonitor m x),
          b.startedAt ≤ a.startedAt) ∧
      (attacks.filter (fun x => matchesMonitor m x)).find?
          (fun b => b.startedAt == a.startedAt) = some a) := by
  unfold correlate
  cases hf : attacks.filter (fun a => matchesMonitor m a) with
  | nil => simp [selectLatest]
  | cons x rest =>
      constructor
      · simp [selectLatest]
      · intro a ha
        have hp : pickLatest x rest = a := by
          simpa [selectLatest] using ha
        subst hp
        refine ⟨?_, ?_, pickLatest_first x rest⟩
        · rcases pickLatest_mem x rest with h | h
          · rw [h]; exact List.mem_cons_self x rest
          · exact List.mem_cons_of_mem x h
        · intro b hb
          rcases List.mem_cons.mp hb with hbx | hb'
          · rw [hbx]; exact pickLatest_le x rest
          · exact pickLatest_bound x rest b hb'

/-! ### Dispatcher lemmas -/

/-- `sendAlert` on a failed `channel.send` (monitor.js lines 366-388):
retry-or-drop. -/
theorem sendAlert_sendErr (task : AlertTask) (now : Int) (st : MonState) :
    sendAlert task SendResult.sendErr now st
      = if task.retries < maxRetries then
          { st with alertQueue := { task with retries := task.retries + 1 } :: st.alertQueue }
        else
          { st with errors := st.errors + 1
                    metricLog := st.metricLog ++ ["alert_error"] } := rfl

/-- `sendAlert` never writes the `monitored_ips` rows, whatever the
outcome. -/
theorem sendAlert_rows (task : AlertTask) (res : SendResult) (now : Int)
    (st : MonState) : (sendAlert task res now st).rows = st.rows := by
  cases res with
  | noGuild => rfl
  | noChannel => rfl
  | sendOk => rfl
  | sendErr => rw [sendAlert_sendErr]; split <;> rfl

/-- `sendAlert` touches `lastAlerts` only on a successful send. -/
theorem sendAlert_lastAlerts_of_ne (task : AlertTask) (res : SendResult)
    (now : Int) (st : MonState) (h : res ≠ SendResult.sendOk) :
    (sendAlert task res now st).lastAlerts = st.lastAlerts := by
  cases res with
  | noGuild => rfl
  | noChannel => rfl
  | sendOk => exact absurd rfl h
  | sendErr => rw [sendAlert_sendErr]; split <;> rfl

/-! ### C2 -/

/-- The state reached from an accepted `(sampleMonitor, sampleAttack)` pair
after four consecutive delivery failures: the task is retried three times and
then dropped. -/
def failedDeliveryState : MonState :=
  dispatchOnce SendResult.sendErr 1400 (dispatchOnce SendResult.sendErr 1300
    (dispatchOnce SendResult.sendErr 1200 (dispatchOnce SendResult.sendErr 1100
      (decisionEngine sampleMonitor sampleAttack 1000 emptyRunningState))))

/-- C2 counterexample: the Decision Engine accepts `(sampleMonitor,
sampleAttack)` at time 1000, yet immediately after acceptance there is no
cooldown entry for the key, and after every delivery attempt has failed (the
task has been dropped — the queue is empty and nothing was sent) there is
still none: the cooldown write does NOT happen at decision time. -/
theorem cooldown_at_decision_time_counterexample :
    shouldSendAlert sampleMonitor sampleAttack emptyRunningState.lastAlerts 1000 = true ∧
    (decisionEngine sampleMonitor sampleAttack 1000 emptyRunningState).lastAlerts = [] ∧
    failedDeliveryState.lastAlerts = [] ∧
    failedDeliveryState.alertQueue = [] ∧
    failedDeliveryState.alertsSent = 0 := by
  refine ⟨by decide, by decide, by decide, by decide, by decide⟩

/-- C2 amended: the cooldown entry for `(guild_id, ip_address)` is written by
`sendAlert` only after `channel.send` succeeds — not at decision/acceptance
time: acceptance (`shouldSendAlert` + `queueAlert`) leaves `lastAlerts`
untouched, every non-success outcome of a send attempt leaves it untouched,
and a successful send sets the entry to the send time. -/
theorem cooldown_written_on_success_only (m : Monitor) (a : Attack)
    (task : AlertTask) (res : SendResult) (now : Int) (st : MonState) :
    ((decisionEngine m a now st).lastAlerts = st.lastAlerts) ∧
    (res ≠ SendResult.sendOk →
      (sendAlert task res now st).lastAlerts = st.lastAlerts) ∧
    ((sendAlert task SendResult.sendOk now st).lastAlerts
        = mapSet st.lastAlerts (taskAlertKey task) now) := by
  refine ⟨?_, ?_, rfl⟩
  · unfold decisionEngine queueAlert
    split <;> rfl
  · exact sendAlert_lastAlerts_of_ne task res now st

/-! ### C3 -/

/-- The state reached by `processMonitor` accepting `(sampleMonitor,
sampleAttack)` from `runningState` (whose store holds row 1 as
`⟨none, none, 0⟩`), before any delivery attempt.  One task is queued; the
attempted cursor write has already been swallowed. -/
def acceptedState : MonState :=
  processMonitor sampleMonitor [sampleAttack] 1000 runningState

/-- C3 counterexample: the target row is never updated at all — in
particular not "exactly once, after the successful attempt".  Concretely:
row 1 starts as `⟨none, none, 0⟩`; the pair is accepted (a task is queued),
delivery fails once and then SUCCEEDS on the second attempt
(`alertsSent = 1`), yet the row still reads `⟨none, none, 0⟩` after the
successful send: `database.updateMonitor` does not exist, so the write in
`updateMonitorAttackInfo` throws and is swallowed. -/
theorem target_row_never_updated_counterexample :
    lookupRow runningState.rows 1 = some ⟨none, none, 0⟩ ∧
    acceptedState.alertQueue
      = [⟨JsVal.mon sampleMonitor, JsVal.atk sampleAttack, 1000, 0⟩] ∧
    acceptedState.alertsSent = 0 ∧
    lookupRow (dispatchOnce SendResult.sendErr 1100 acceptedState).rows 1
      = some ⟨none, none, 0⟩ ∧
    (dispatchOnce SendResult.sendOk 1200
        (dispatchOnce SendResult.sendErr 1100 acceptedState)).alertsSent = 1 ∧
    lookupRow (dispatchOnce SendResult.sendOk 1200
        (dispatchOnce SendResult.sendErr 1100 acceptedState)).rows 1
      = some ⟨none, none, 0⟩ := by
  refine ⟨by decide, by decide, by decide, by decide, by decide, by decide⟩

/-- C3 amended: the engine never updates the target row.
`updateMonitorAttackInfo` calls `database.updateMonitor`, a method absent
from the `DatabaseManager`; the thrown `TypeError` is caught and swallowed
inside `updateMonitorAttackInfo`, so `processMonitor` leaves the
`monitored_ips` rows unchanged in every case (acceptance included — only the
queue grows), and `sendAlert` / the dispatcher never write the target store
either, whatever the attempt's outcome.  The durable dedup cursor
`last_attack_id` is therefore never advanced by the engine. -/
theorem target_row_never_updated (m : Monitor) (attacks : List Attack)
    (now : Int) (st : MonState) (task : AlertTask) (res : SendResult) :
    (processMonitor m attacks now st).rows = st.rows ∧
    (sendAlert task res now st).rows = st.rows ∧
    (dispatchOnce res now st).rows = st.rows := by
  refine ⟨?_, sendAlert_rows task res now st, ?_⟩
  · unfold processMonitor
    split
    · rfl
    · split <;> rfl
  · unfold dispatchOnce
    split
    · rfl
    · exact sendAlert_rows _ res now _

/-! ### C5 -/

/-- C5: dispatcher retry policy.  When a send attempt fails with
`task.retries < maxRetries` (3), the task is requeued — retry count
incremented — at the FRONT of the queue (`unshift`), so even after further
enqueues it is at the head and is dequeued (`shift`) before any task
enqueued after it.  When a send fails with `task.retries = maxRetries`, the
task is dropped, the error counter is bumped and the permanent-failure
metric `alert_error` is recorded. -/
theorem dispatcher_retry_policy (st : MonState) (task : AlertTask)
    (rest : List AlertTask) (now now2 : Int) (mv av : JsVal)
    (h : st.alertQueue = task :: rest) :
    (task.retries < maxRetries →
      (dispatchOnce SendResult.sendErr now st).alertQueue
          = { task with retries := task.retries + 1 } :: rest ∧
      (queueAlert mv av now2 (dispatchOnce SendResult.sendErr now st)).alertQueue.head?
          = some { task with retries := task.retries + 1 }) ∧
    (task.retries = maxRetries →
      (dispatchOnce SendResult.sendErr now st).alertQueue = rest ∧
      (dispatchOnce SendResult.sendErr now st).errors = st.errors + 1 ∧
      (dispatchOnce SendResult.sendErr now st).metricLog
          = st.metricLog ++ ["alert_error"]) := by
  have hd : dispatchOnce SendResult.sendErr now st
      = sendAlert task SendResult.sendErr now { st with alertQueue := rest } := by
    unfold dispatchOnce
    rw [h]
  rw [hd, sendAlert_sendErr]
  constructor
  · intro hr
    rw [if_pos hr]
    exact ⟨rfl, rfl⟩
  · intro hr
    have hnr : ¬ task.retries < maxRetries := by omega
    rw [if_neg hnr]
    exact ⟨rfl, rfl, rfl⟩

/-- A fresh task at the head of the queue. -/
def taskA : AlertTask := ⟨JsVal.mon sampleMonitor, JsVal.atk sampleAttack, 1000, 0⟩

/-- A task that has already used all its retries. -/
def taskExhausted : AlertTask := ⟨JsVal.mon sampleMonitor, JsVal.atk sampleAttack, 1000, 3⟩

/-- Running state with `taskA` queued. -/
def queuedState : MonState := { emptyRunningState with alertQueue := [taskA] }

/-- Running state with `taskExhausted` queued. -/
def exhaustedState : MonState := { emptyRunningState with alertQueue := [taskExhausted] }

/-- Witness for C5, exercising both the requeue-at-front path (`taskA`,
retries 0) and the drop path (`taskExhausted`, retries 3). -/
theorem dispatcher_retry_policy_witness :
    (queuedState.alertQueue = taskA :: [] ∧
      ((taskA.retries < maxRetries →
        (dispatchOnce SendResult.sendErr 1100 queuedState).alertQueue
            = { taskA with retries := taskA.retries + 1 } :: [] ∧
        (queueAlert JsVal.undef JsVal.undef 1200
            (dispatchOnce SendResult.sendErr 1100 queuedState)).alertQueue.head?
            = some { taskA with retries := taskA.retries + 1 }) ∧
      (taskA.retries = maxRetries →
        (dispatchOnce SendResult.sendErr 1100 queuedState).alertQueue = [] ∧
        (dispatchOnce SendResult.sendErr 1100 queuedState).errors
            = queuedState.errors + 1 ∧
        (dispatchOnce SendResult.sendErr 1100 queuedState).metricLog
            = queuedState.metricLog ++ ["alert_error"]))) ∧
    (exhaustedState.alertQueue = taskExhausted :: [] ∧
      ((taskExhausted.retries < maxRetries →
        (dispatchOnce SendResult.sendErr 1100 exhaustedState).alertQueue
            = { taskExhausted with retries := taskExhausted.retries + 1 } :: [] ∧
        (queueAlert JsVal.undef JsVal.undef 1200
            (dispatchOnce SendResult.sendErr 1100 exhaustedState)).alertQueue.head?
            = some { taskExhausted with retries := taskExhausted.retries + 1 }) ∧
      (taskExhausted.retries = maxRetries →
        (dispatchOnce SendResult.sendErr 1100 exhaustedState).alertQueue = [] ∧
        (dispatchOnce SendResult.sendErr 1100 exhaustedState).errors
            = exhaustedState.errors + 1 ∧
        (dispatchOnce SendResult.sendErr 1100 exhaustedState).metricLog
            = exhaustedState.metricLog ++ ["alert_error"]))) :=
  ⟨⟨rfl, dispatcher_retry_policy queuedState taskA [] 1100 1200
      JsVal.undef JsVal.undef rfl⟩,
   ⟨rfl, dispatcher_retry_policy exhaustedState taskExhausted [] 1100 1200
      JsVal.undef JsVal.undef rfl⟩⟩

/-! ### Check-cycle lemmas -/

/-- `processMonitor` never touches the check counter. -/
theorem processMonitor_totalChecks (m : Monitor) (attacks : List Attack)
    (now : Int) (st : MonState) :
    (processMonitor m attacks now st).totalChecks = st.totalChecks := by
  unfold processMonitor
  split
  · rfl
  · split <;> rfl

/-- `processMonitors` never touches the check counter. -/
theorem processMonitors_totalChecks (ms : List Monitor) (attacks : List Attack)
    (now : Int) (st : MonState) :
    (processMonitors ms attacks now st).totalChecks = st.totalChecks := by
  induction ms generalizing st with
  | nil => rfl
  | cons m ms ih =>
      have h : processMonitors (m :: ms) attacks now st
          = processMonitors ms attacks now (processMonitor m attacks now st) := rfl
      rw [h, ih, processMonitor_totalChecks]

/-- `closeCircuitBreaker` never touches the check counter. -/
theorem closeCircuitBreaker_totalChecks (st : MonState) :
    (closeCircuitBreaker st).totalChecks = st.totalChecks := by
  unfold closeCircuitBreaker
  split <;> rfl

/-- After `closeCircuitBreaker` the breaker is closed. -/
theorem closeCircuitBreaker_isOpen (st : MonState) :
    (closeCircuitBreaker st).breaker.isOpen = false := by
  unfold closeCircuitBreaker
  split
  · rfl
  · rename_i h
    simpa using h

/-- `closeCircuitBreaker` never touches the consecutive-failure count. -/
theorem closeCircuitBreaker_consecutiveFailures (st : MonState) :
    (closeCircuitBreaker st).consecutiveFailures = st.consecutiveFailures := by
  unfold closeCircuitBreaker
  split <;> rfl

/-- `handleMonitoringError` never touches the check counter. -/
theorem handleMonitoringError_totalChecks (now : Int) (st : MonState) :
    (handleMonitoringError now st).totalChecks = st.totalChecks := by
  unfold handleMonitoringError openCircuitBreaker
  split <;> rfl

/-- When the incremented consecutive-failure count reaches the threshold,
the failure handler opens the breaker and stamps the current time. -/
theorem handleMonitoringError_opens (now : Int) (s : MonState)
    (h : s.consecutiveFailures + 1 ≥ maxConsecutiveFailures) :
    (handleMonitoringError now s).breaker.isOpen = true ∧
    (handleMonitoringError now s).breaker.lastFailureTime = some now := by
  unfold handleMonitoringError openCircuitBreaker
  rw [if_pos h]
  exact ⟨rfl, rfl⟩

/-- Below the threshold the failure handler leaves the breaker untouched. -/
theorem handleMonitoringError_below (now : Int) (s : MonState)
    (h : ¬ s.consecutiveFailures + 1 ≥ maxConsecutiveFailures) :
    (handleMonitoringError now s).breaker = s.breaker := by
  unfold handleMonitoringError
  rw [if_neg h]

/-! ### C4 -/

/-- C4: the circuit breaker state machine.  (1) The failure handler opens
the breaker, stamping `lastFailureTime = now'`, exactly once the incremented
consecutive-failure count reaches the threshold 5, and leaves the breaker
untouched below it.  For a running system with an open breaker stamped `t0`,
active monitors and a healthy store: (2) while `resetTimeout` has not
elapsed, a check cycle is short-circuited — the upstream dependency is not
invoked and the state is returned unchanged; (3) once `resetTimeout` has
elapsed, the next cycle goes through as a single trial and invokes the
upstream fetch; (4) if that trial fails, the breaker re-opens at once (the
consecutive-failure count was never reset while the breaker was open) with a
fresh stamp `now`, so by (2) the following cycles are short-circuited
again — i.e. exactly one trial per window; (5) if the trial succeeds, the
failure count is reset to 0 and the breaker is closed. -/
theorem circuit_breaker_state_machine (env : CycleEnv) (st s : MonState)
    (now now' : Int) (fc : Nat) (t0 : Int) (attacks : List Attack)
    (hrun : st.isRunning = true)
    (hdb : env.dbOk = true)
    (hms : env.activeMonitors ≠ [])
    (hbr : st.breaker = ⟨true, fc, some t0⟩) :
    (s.consecutiveFailures + 1 ≥ maxConsecutiveFailures →
      (handleMonitoringError now' s).breaker.isOpen = true ∧
      (handleMonitoringError now' s).breaker.lastFailureTime = some now') ∧
    (s.consecutiveFailures + 1 < maxConsecutiveFailures →
      (handleMonitoringError now' s).breaker = s.breaker) ∧
    (now - t0 ≤ resetTimeout →
      performMonitoringCheck env now st = ⟨st, false⟩) ∧
    (now - t0 > resetTimeout →
      (performMonitoringCheck env now st).upstreamCalled = true) ∧
    (now - t0 > resetTimeout → env.apiResult = none →
      st.consecutiveFailures + 1 ≥ maxConsecutiveFailures →
      (performMonitoringCheck env now st).state.breaker.isOpen = true ∧
      (performMonitoringCheck env now st).state.breaker.lastFailureTime
          = some now) ∧
    (now - t0 > resetTimeout → env.apiResult = some attacks →
      (performMonitoringCheck env now st).state.breaker.isOpen = false ∧
      (performMonitoringCheck env now st).state.consecutiveFailures = 0) := by
  have hne : (getAllActiveMonitors env.dbOk env.activeMonitors).isEmpty = false := by
    rw [hdb]
    show env.activeMonitors.isEmpty = false
    cases henv : env.activeMonitors with
    | nil => exact absurd henv hms
    | cons a as => rfl
  refine ⟨?_, ?_, ?_, ?_, ?_, ?_⟩
  · intro h
    exact handleMonitoringError_opens now' s h
  · intro h
    exact handleMonitoringError_below now' s (by omega)
  · intro h2
    have hp : isCircuitBreakerOpenFn st.breaker now = (true, st.breaker) := by
      rw [hbr]
      unfold isCircuitBreakerOpenFn
      have hno : ¬ now - (Option.getD (some t0) 0) > resetTimeout := by
        simp only [Option.getD_some]
        omega
      rw [if_pos rfl, if_neg hno]
    have hrunNe : ¬ st.isRunning = false := by simp [hrun]
    unfold performMonitoringCheck
    rw [if_neg hrunNe, hp]
    rfl
  · intro h2
    have hp : isCircuitBreakerOpenFn st.breaker now
        = (false, ⟨false, fc, some t0⟩) := by
      rw [hbr]
      unfold isCircuitBreakerOpenFn
      have hgt : now - (Option.getD (some t0) 0) > resetTimeout := by
        simp only [Option.getD_some]
        omega
      rw [if_pos rfl, if_pos hgt]
    rcases ha : env.apiResult with _ | attacks2 <;>
      simp [performMonitoringCheck, hrun, hp, hne, ha]
  · intro h2 ha hcf
    have hp : isCircuitBreakerOpenFn st.breaker now
        = (false, ⟨false, fc, some t0⟩) := by
      rw [hbr]
      unfold isCircuitBreakerOpenFn
      have hgt : now - (Option.getD (some t0) 0) > resetTimeout := by
        simp only [Option.getD_some]
        omega
      rw [if_pos rfl, if_pos hgt]
    have hh := handleMonitoringError_opens now
      { st with breaker := ⟨false, fc, some t0⟩
                totalChecks := st.totalChecks + 1 } hcf
    have hrunNe : ¬ st.isRunning = false := by simp [hrun]
    have hred : performMonitoringCheck env now st
        = ⟨handleMonitoringError now
            { st with breaker := ⟨false, fc, some t0⟩
                      totalChecks := st.totalChecks + 1 }, true⟩ := by
      unfold performMonitoringCheck
      rw [if_neg hrunNe, hp, ha, hne]
      rfl
    rw [hred]
    exact hh
  · intro h2 ha
    have hp : isCircuitBreakerOpenFn st.breaker now
        = (false, ⟨false, fc, some t0⟩) := by
      rw [hbr]
      unfold isCircuitBreakerOpenFn
      have hgt : now - (Option.getD (some t0) 0) > resetTimeout := by
        simp only [Option.getD_some]
        omega
      rw [if_pos rfl, if_pos hgt]
    simp [performMonitoringCheck, hrun, hp, hne, ha,
      closeCircuitBreaker_isOpen, closeCircuitBreaker_consecutiveFailures]

/-- Environment with one active monitor and a failing upstream fetch (used
by the C4 witness). -/
def envFail : CycleEnv := ⟨true, [sampleMonitor], none⟩

/-- Running state with the breaker open since time 0 and five accumulated
consecutive failures (the state in which the code actually opens it). -/
def breakerOpenState : MonState :=
  { emptyRunningState with breaker := ⟨true, 0, some 0⟩
                           consecutiveFailures := 5 }

/-- Running state with four consecutive failures, one below the threshold. -/
def fourFailuresState : MonState :=
  { emptyRunningState with consecutiveFailures := 4 }

/-- Witness for C4 with the breaker opened at time 0, probed at time 400000
(past the 300000 ms reset timeout), failing upstream. -/
theorem circuit_breaker_state_machine_witness :
    breakerOpenState.isRunning = true ∧
    envFail.dbOk = true ∧
    envFail.activeMonitors ≠ [] ∧
    breakerOpenState.breaker = ⟨true, 0, some 0⟩ ∧
    ((fourFailuresState.consecutiveFailures + 1 ≥ maxConsecutiveFailures →
      (handleMonitoringError 777 fourFailuresState).breaker.isOpen = true ∧
      (handleMonitoringError 777 fourFailuresState).breaker.lastFailureTime
          = some 777) ∧
    (fourFailuresState.consecutiveFailures + 1 < maxConsecutiveFailures →
      (handleMonitoringError 777 fourFailuresState).breaker
          = fourFailuresState.breaker) ∧
    ((400000 : Int) - 0 ≤ resetTimeout →
      performMonitoringCheck envFail 400000 breakerOpenState
          = ⟨breakerOpenState, false⟩) ∧
    ((400000 : Int) - 0 > resetTimeout →
      (performMonitoringCheck envFail 400000 breakerOpenState).upstreamCalled
          = true) ∧
    ((400000 : Int) - 0 > resetTimeout → envFail.apiResult = none →
      breakerOpenState.consecutiveFailures + 1 ≥ maxConsecutiveFailures →
      (performMonitoringCheck envFail 400000 breakerOpenState).state.breaker.isOpen
          = true ∧
      (performMonitoringCheck envFail 400000 breakerOpenState).state.breaker.lastFailureTime
          = some 400000) ∧
    ((400000 : Int) - 0 > resetTimeout → envFail.apiResult = some [] →
      (performMonitoringCheck envFail 400000 breakerOpenState).state.breaker.isOpen
          = false ∧
      (performMonitoringCheck envFail 400000 breakerOpenState).state.consecutiveFailures
          = 0)) :=
  ⟨by decide, by decide, by decide, by decide,
   circuit_breaker_state_machine envFail breakerOpenState fourFailuresState
     400000 777 0 0 [] (by decide) (by decide) (by decide) (by decide)⟩

/-! ### C8 -/

/-- A cycle environment with one active monitor and a healthy upstream
currently reporting no attacks. -/
def idleEnv : CycleEnv := ⟨true, [sampleMonitor], some []⟩

/-- The in-memory state observed while a first invocation of
`performMonitoringCheck` is suspended mid-cycle: it has already executed
`this.metrics.totalChecks++` (monitor.js line 150) and is awaiting its
upstream fetch.  No field of the state records that a cycle is in flight. -/
def midCycleState : MonState :=
  { emptyRunningState with totalChecks := emptyRunningState.totalChecks + 1 }

/-- C8 counterexample: a second timer firing that enters
`performMonitoringCheck` in `midCycleState` — while the first cycle is still
in flight — is NOT a no-op: it performs the full check again (the upstream
dependency is invoked and the check counter is bumped a second time). -/
theorem overlapping_check_not_noop_counterexample :
    (performMonitoringCheck idleEnv 1000 midCycleState).upstreamCalled = true ∧
    (performMonitoringCheck idleEnv 1000 midCycleState).state.totalChecks = 2 :=
  ⟨by decide, by decide⟩

/-- C8 amended: `performMonitoringCheck` has no overlap guard.  Its only
skip conditions are "system not running" and "circuit breaker open": the
check counter is bumped (the cycle proceeds past the guards) precisely when
`isRunning` holds and the breaker check returns false — no in-flight flag is
consulted, so overlapping timer firings each execute the full check.  (Only
the alert-queue drain has such a guard, `isProcessingAlerts`.) -/
theorem check_cycle_has_no_overlap_guard (env : CycleEnv) (now : Int)
    (st : MonState) :
    (performMonitoringCheck env now st).state.totalChecks
      = if st.isRunning && !(isCircuitBreakerOpenFn st.breaker now).1
        then st.totalChecks + 1 else st.totalChecks := by
  by_cases h1 : st.isRunning = false
  · unfold performMonitoringCheck
    rw [if_pos h1, h1]
    rfl
  · have h1' : st.isRunning = true := by
      revert h1
      cases st.isRunning <;> simp
    rcases hp : isCircuitBreakerOpenFn st.breaker now with ⟨b, cb⟩
    cases b with
    | true => simp [performMonitoringCheck, h1', hp]
    | false =>
        by_cases hmp :
            (getAllActiveMonitors env.dbOk env.activeMonitors).isEmpty = true
        · simp [performMonitoringCheck, h1', hp, hmp]
        · rcases ha : env.apiResult with _ | attacks
          · simp [performMonitoringCheck, h1', hp, hmp, ha,
              handleMonitoringError_totalChecks]
          · simp [performMonitoringCheck, h1', hp, hmp, ha,
              closeCircuitBreaker_totalChecks, processMonitors_totalChecks]

/-! ### C9 -/

/-- C9 (code defect): `sendTestAlert` does bypass the Decision Engine —
nothing is checked and exactly one task is pushed, with retry count 0 — but
the enqueued task is NOT the well-formed `(target, test attack)` task the
spec describes.  Because the source passes a single object literal to the
two-parameter `queueAlert(monitor, attack)`, the task's `monitor` field
holds the whole wrapper object and its `attack` field is `undefined`. -/
theorem sendTestAlert_enqueues_malformed_task :
    (sendTestAlert sampleMonitor 1000 emptyRunningState).alertQueue
      = [⟨JsVal.obj (JsVal.mon sampleMonitor) (JsVal.atk (testAttack 1000)) 1000 0,
          JsVal.undef, 1000, 0⟩] ∧
    (sendTestAlert sampleMonitor 1000 emptyRunningState).alertQueue.map
        AlertTask.attack = [JsVal.undef] ∧
    JsVal.undef ≠ JsVal.atk (testAttack 1000) ∧
    (sendTestAlert sampleMonitor 1000 emptyRunningState).alertQueue.map
        AlertTask.monitor ≠ [JsVal.mon sampleMonitor] ∧
    (sendTestAlert sampleMonitor 1000 emptyRunningState).lastAlerts
      = emptyRunningState.lastAlerts :=
  ⟨rfl, rfl, by decide, by decide, rfl⟩

/-! ### C10 -/

/-- C10: when the `monitored_ips` query fails, `getAllActiveMonitors`
returns `[]` instead of propagating the error, and the check cycle then
returns early: the upstream API is not called, no alert task is enqueued,
and the consecutive-failure count and breaker are untouched (only the check
counter is bumped) — so a target-store read failure never contributes to
opening the circuit breaker. -/
theorem store_failure_skips_cycle (env : CycleEnv) (now : Int) (st : MonState)
    (hrun : st.isRunning = true)
    (hcb : (isCircuitBreakerOpenFn st.breaker now).1 = false)
    (hdb : env.dbOk = false) :
    getAllActiveMonitors env.dbOk env.activeMonitors = [] ∧
    (performMonitoringCheck env now st).upstreamCalled = false ∧
    (performMonitoringCheck env now st).state.alertQueue = st.alertQueue ∧
    (performMonitoringCheck env now st).state.consecutiveFailures
        = st.consecutiveFailures ∧
    (performMonitoringCheck env now st).state.breaker
        = (isCircuitBreakerOpenFn st.breaker now).2 ∧
    (performMonitoringCheck env now st).state.totalChecks
        = st.totalChecks + 1 := by
  have hmon : getAllActiveMonitors env.dbOk env.activeMonitors = [] := by
    rw [hdb]
    rfl
  have hrunNe : ¬ st.isRunning = false := by simp [hrun]
  have hcbNe : ¬ (isCircuitBreakerOpenFn st.breaker now).1 = true := by
    simp [hcb]
  have hred : performMonitoringCheck env now st
      = ⟨{ st with breaker := (isCircuitBreakerOpenFn st.breaker now).2
                   totalChecks := st.totalChecks + 1 }, false⟩ := by
    unfold performMonitoringCheck
    rw [if_neg hrunNe, if_neg hcbNe, hmon]
    rfl
  rw [hred]
  exact ⟨hmon, rfl, rfl, rfl, rfl, rfl⟩

/-- Environment whose target-store query fails. -/
def storeFailEnv : CycleEnv := ⟨false, [], none⟩

/-- Witness for C10 at the concrete running state with a closed breaker. -/
theorem store_failure_skips_cycle_witness :
    emptyRunningState.isRunning = true ∧
    (isCircuitBreakerOpenFn emptyRunningState.breaker 1000).1 = false ∧
    storeFailEnv.dbOk = false ∧
    (getAllActiveMonitors storeFailEnv.dbOk storeFailEnv.activeMonitors = [] ∧
     (performMonitoringCheck storeFailEnv 1000 emptyRunningState).upstreamCalled
        = false ∧
     (performMonitoringCheck storeFailEnv 1000 emptyRunningState).state.alertQueue
        = emptyRunningState.alertQueue ∧
     (performMonitoringCheck storeFailEnv 1000 emptyRunningState).state.consecutiveFailures
        = emptyRunningState.consecutiveFailures ∧
     (performMonitoringCheck storeFailEnv 1000 emptyRunningState).state.breaker
        = (isCircuitBreakerOpenFn emptyRunningState.breaker 1000).2 ∧
     (performMonitoringCheck storeFailEnv 1000 emptyRunningState).state.totalChecks
        = emptyRunningState.totalChecks + 1) :=
  ⟨by decide, by decide, by decide,
   store_failure_skips_cycle storeFailEnv 1000 emptyRunningState
     (by decide) (by decide) (by decide)⟩

/-- Witness for C2's amended theorem at a concrete accepted pair and task. -/
theorem cooldown_written_on_success_only_witness :
    ((decisionEngine sampleMonitor sampleAttack 1000 emptyRunningState).lastAlerts
        = emptyRunningState.lastAlerts) ∧
    (SendResult.sendErr ≠ SendResult.sendOk →
      (sendAlert taskA SendResult.sendErr 1000 emptyRunningState).lastAlerts
        = emptyRunningState.lastAlerts) ∧
    ((sendAlert taskA SendResult.sendOk 1000 emptyRunningState).lastAlerts
        = mapSet emptyRunningState.lastAlerts (taskAlertKey taskA) 1000) :=
  cooldown_written_on_success_only sampleMonitor sampleAttack taskA
    SendResult.sendErr 1000 emptyRunningState

/-- Witness for C7's amended theorem on a concrete fetched list. -/
theorem correlate_selects_first_latest_witness :
    (correlate sampleMonitor [sampleAttackA, sampleAttackB] = none
        ↔ [sampleAttackA, sampleAttackB].filter
            (fun a => matchesMonitor sampleMonitor a) = []) ∧
    (∀ a, correlate sampleMonitor [sampleAttackA, sampleAttackB] = some a →
      a ∈ [sampleAttackA, sampleAttackB].filter
          (fun x => matchesMonitor sampleMonitor x) ∧
      (∀ b ∈ [sampleAttackA, sampleAttackB].filter
          (fun x => matchesMonitor sampleMonitor x),
          b.startedAt ≤ a.startedAt) ∧
      ([sampleAttackA, sampleAttackB].filter
          (fun x => matchesMonitor sampleMonitor x)).find?
          (fun b => b.startedAt == a.startedAt) = some a) :=
  correlate_selects_first_latest sampleMonitor [sampleAttackA, sampleAttackB]
